import Mathlib

/-!
Verification of the admission-control, renderer-lifecycle and font-cache
layers of the `yourcv-pdf-service` server (`server.js`), via a shallow
embedding of its state and operations.
-/

set_option maxHeartbeats 1000000

/-- Default of `MAX_CONCURRENT` (`parseInt(process.env.MAX_CONCURRENT || '3')`). -/
def MAX_CONCURRENT_DEFAULT : Nat := 3

/-- State of the concurrency queue: the module-level mutable
`activeJobs` counter and `waitQueue` array of pending resolvers
(modelled as ticket ids). -/
structure QState where
  activeJobs : Nat
  waitQueue  : List Nat
deriving DecidableEq

/-- Result of an `acquireSlot` call: the returned promise either resolves
immediately (`granted`) or the resolver is pushed on `waitQueue` (`queued`). -/
inductive AcqResult
  | granted
  | queued
deriving DecidableEq

/-- `acquireSlot` from server.js: if `activeJobs < MAX_CONCURRENT` increment
and resolve, otherwise push the resolver at the tail of `waitQueue`. -/
def acquireSlot (N : Nat) (q : QState) (t : Nat) : AcqResult × QState :=
  if q.activeJobs < N then
    (AcqResult.granted, { q with activeJobs := q.activeJobs + 1 })
  else
    (AcqResult.queued, { q with waitQueue := q.waitQueue ++ [t] })

/-- `releaseSlot` from server.js: if `waitQueue` is non-empty, shift the
oldest resolver and call it (no decrement: the slot transfers); otherwise
decrement `activeJobs`. -/
def releaseSlot (q : QState) : Option Nat × QState :=
  match q.waitQueue with
  | next :: rest => (some next, { q with waitQueue := rest })
  | [] => (none, { q with activeJobs := q.activeJobs - 1 })

/-- Events of the admission subsystem: an `acquireSlot` call by a new job,
the 90s `slotTimeout` firing for a still-queued request (the handler
returns 504; nothing removes the resolver from `waitQueue`), and a
`releaseSlot` call by a finishing job. -/
inductive SEvent
  | acq (t : Nat)
  | timeoutFire (t : Nat)
  | rel
deriving DecidableEq

/-- Queue state plus ghost observation fields: `granted`/`released` count
slot grants and releases, `enq`/`deq` record the order tickets enter and
leave `waitQueue`, `abandoned` records tickets whose request already
returned 504 on `QUEUE_TIMEOUT`, `liveJobs` counts jobs actually running
(holding a slot and able to call `releaseSlot` later), and `toAbandoned`
counts slot transfers whose resolver belonged to an abandoned request. -/
structure TraceSt where
  q : QState
  granted : Nat
  released : Nat
  enq : List Nat
  deq : List Nat
  abandoned : List Nat
  liveJobs : Nat
  toAbandoned : Nat
deriving DecidableEq

/-- Initial server state: no active jobs, empty queue. -/
def initTrace : TraceSt :=
  { q := { activeJobs := 0, waitQueue := [] }
    granted := 0, released := 0, enq := [], deq := []
    abandoned := [], liveJobs := 0, toAbandoned := 0 }

/-- One step of the admission subsystem, as the code behaves.  A `rel`
that shifts a resolver of an abandoned request resolves a promise whose
`Promise.race` has already settled: no job starts, which the ghost fields
record (`liveJobs` not incremented, `toAbandoned` incremented). -/
def stepEvent (N : Nat) (s : TraceSt) : SEvent → TraceSt
  | SEvent.acq t =>
    match acquireSlot N s.q t with
    | (AcqResult.granted, q') =>
        { s with q := q', granted := s.granted + 1, liveJobs := s.liveJobs + 1 }
    | (AcqResult.queued, q') =>
        { s with q := q', enq := s.enq ++ [t] }
  | SEvent.timeoutFire t => { s with abandoned := t :: s.abandoned }
  | SEvent.rel =>
    match releaseSlot s.q with
    | (some t, q') =>
        { s with q := q', granted := s.granted + 1, released := s.released + 1
                 deq := s.deq ++ [t]
                 liveJobs := s.liveJobs - 1 + (if t ∈ s.abandoned then 0 else 1)
                 toAbandoned := s.toAbandoned + (if t ∈ s.abandoned then 1 else 0) }
    | (none, q') =>
        { s with q := q', released := s.released + 1, liveJobs := s.liveJobs - 1 }

/-- A trace is legal when `timeoutFire t` only fires for a ticket actually
waiting, and `releaseSlot` is only called from the `finally` block of a
running job (so a grant is outstanding and a live job exists). -/
def legalFrom (N : Nat) (s : TraceSt) : List SEvent → Bool
  | [] => true
  | SEvent.acq t :: es => legalFrom N (stepEvent N s (SEvent.acq t)) es
  | SEvent.timeoutFire t :: es =>
      s.q.waitQueue.contains t && legalFrom N (stepEvent N s (SEvent.timeoutFire t)) es
  | SEvent.rel :: es =>
      decide (s.released < s.granted) && decide (1 ≤ s.liveJobs)
        && legalFrom N (stepEvent N s SEvent.rel) es

/-- Run a trace of admission events from a state. -/
def runFrom (N : Nat) (s : TraceSt) (evs : List SEvent) : TraceSt :=
  evs.foldl (stepEvent N) s

/-- Run a trace from the initial server state. -/
def runTrace (N : Nat) (evs : List SEvent) : TraceSt :=
  runFrom N initTrace evs

/-- Invariant of the admission subsystem: outstanding grants equal
`activeJobs`, `activeJobs` never exceeds capacity, tickets leave
`waitQueue` in arrival order, and the queue is only non-empty at full
capacity. -/
def AdmInv (N : Nat) (s : TraceSt) : Prop :=
  s.granted = s.released + s.q.activeJobs
  ∧ s.q.activeJobs ≤ N
  ∧ s.enq = s.deq ++ s.q.waitQueue
  ∧ (s.q.waitQueue ≠ [] → s.q.activeJobs = N)

lemma admInv_init (N : Nat) : AdmInv N initTrace := by
  refine ⟨rfl, Nat.zero_le N, rfl, ?_⟩
  intro h
  exact absurd rfl h

lemma admInv_step_acq (N : Nat) (s : TraceSt) (t : Nat) (h : AdmInv N s) :
    AdmInv N (stepEvent N s (SEvent.acq t)) := by
  obtain ⟨⟨a, w⟩, g, r, enq, deq, ab, lj, ta⟩ := s
  obtain ⟨h1, h2, h3, h4⟩ := h
  simp only at h1 h2 h3 h4
  by_cases hlt : a < N
  · simp only [stepEvent, acquireSlot, if_pos hlt]
    refine ⟨by simp; omega, by simp; omega, h3, ?_⟩
    intro hne
    have := h4 hne
    omega
  · simp only [stepEvent, acquireSlot, if_neg hlt]
    refine ⟨h1, h2, ?_, ?_⟩
    · simp [h3]
    · intro _
      show a = N
      omega

lemma admInv_step_timeout (N : Nat) (s : TraceSt) (t : Nat) (h : AdmInv N s) :
    AdmInv N (stepEvent N s (SEvent.timeoutFire t)) := by
  obtain ⟨h1, h2, h3, h4⟩ := h
  exact ⟨h1, h2, h3, h4⟩

lemma admInv_step_rel (N : Nat) (s : TraceSt) (h : AdmInv N s)
    (hg : s.released < s.granted) :
    AdmInv N (stepEvent N s SEvent.rel) := by
  obtain ⟨⟨a, w⟩, g, r, enq, deq, ab, lj, ta⟩ := s
  obtain ⟨h1, h2, h3, h4⟩ := h
  simp only at h1 h2 h3 h4 hg
  rcases w with _ | ⟨t, rest⟩
  · simp only [stepEvent, releaseSlot]
    refine ⟨?_, ?_, ?_, ?_⟩
    · show g = r + 1 + (a - 1)
      omega
    · show a - 1 ≤ N
      omega
    · simpa using h3
    · intro hne
      simp at hne
  · simp only [stepEvent, releaseSlot]
    refine ⟨?_, h2, ?_, ?_⟩
    · show g + 1 = r + 1 + a
      omega
    · show enq = deq ++ [t] ++ rest
      rw [h3]
      simp
    · intro hne
      exact h4 (by simp)

lemma admInv_run (N : Nat) :
    ∀ (evs : List SEvent) (s : TraceSt), AdmInv N s → legalFrom N s evs = true →
      AdmInv N (runFrom N s evs) := by
  intro evs
  induction evs with
  | nil => intro s h _; exact h
  | cons e es ih =>
    intro s h hleg
    rcases e with t | t | _
    · exact ih _ (admInv_step_acq N s t h) (by simpa [legalFrom] using hleg)
    · simp only [legalFrom, Bool.and_eq_true] at hleg
      exact ih _ (admInv_step_timeout N s t h) hleg.2
    · simp only [legalFrom, Bool.and_eq_true, decide_eq_true_eq] at hleg
      exact ih _ (admInv_step_rel N s h hleg.1.1) hleg.2

lemma take_len_append {α : Type} (xs ys : List α) : (xs ++ ys).take xs.length = xs := by
  induction xs with
  | nil => simp
  | cons a as ih => simp [ih]

/-- C2: with capacity `N` (`MAX_CONCURRENT`), over every legal sequence of
acquire/timeout/release events the number of simultaneously-granted,
not-yet-released slots never exceeds `N`; `acquireSlot` grants immediately
exactly when fewer than `N` slots are outstanding, and otherwise appends
the caller to the wait queue without touching the count. -/
theorem admission_capacity_bound (N : Nat) (evs : List SEvent) (q : QState) (t : Nat)
    (h : legalFrom N initTrace evs = true) :
    (runTrace N evs).granted - (runTrace N evs).released ≤ N
    ∧ ((acquireSlot N q t).1 = AcqResult.granted ↔ q.activeJobs < N)
    ∧ (¬ q.activeJobs < N →
        (acquireSlot N q t).2.waitQueue = q.waitQueue ++ [t]
        ∧ (acquireSlot N q t).2.activeJobs = q.activeJobs) := by
  have hInv : AdmInv N (runTrace N evs) := admInv_run N evs initTrace (admInv_init N) h
  obtain ⟨h1, h2, _, _⟩ := hInv
  refine ⟨by omega, ?_, ?_⟩
  · by_cases hlt : q.activeJobs < N
    · simp [acquireSlot, hlt]
    · simp [acquireSlot, hlt]
  · intro hge
    simp [acquireSlot, hge]

/-- Witness for `admission_capacity_bound` at capacity 2 and a concrete
six-event trace (three acquires, three releases). -/
theorem admission_capacity_bound_witness :
    legalFrom 2 initTrace
        [SEvent.acq 0, SEvent.acq 1, SEvent.acq 2, SEvent.rel, SEvent.rel, SEvent.rel] = true
    ∧ ((runTrace 2 [SEvent.acq 0, SEvent.acq 1, SEvent.acq 2, SEvent.rel, SEvent.rel, SEvent.rel]).granted
          - (runTrace 2 [SEvent.acq 0, SEvent.acq 1, SEvent.acq 2, SEvent.rel, SEvent.rel, SEvent.rel]).released ≤ 2
        ∧ ((acquireSlot 2 ⟨2, []⟩ 9).1 = AcqResult.granted ↔ (⟨2, []⟩ : QState).activeJobs < 2)
        ∧ (¬ (⟨2, []⟩ : QState).activeJobs < 2 →
            (acquireSlot 2 ⟨2, []⟩ 9).2.waitQueue = (⟨2, []⟩ : QState).waitQueue ++ [9]
            ∧ (acquireSlot 2 ⟨2, []⟩ 9).2.activeJobs = (⟨2, []⟩ : QState).activeJobs)) :=
  ⟨by decide,
   admission_capacity_bound 2
     [SEvent.acq 0, SEvent.acq 1, SEvent.acq 2, SEvent.rel, SEvent.rel, SEvent.rel]
     ⟨2, []⟩ 9 (by decide)⟩

/-- C4: FIFO fairness of admission.  Over every legal trace, the sequence
of tickets handed slots out of the wait queue is exactly an initial
segment of the sequence of enqueued tickets (so a ticket enqueued earlier
is granted no later than one enqueued after it); moreover `releaseSlot`
on a non-empty queue hands the slot to the oldest ticket leaving
`activeJobs` unchanged, and decrements `activeJobs` only when the queue
is empty. -/
theorem admission_fifo (N : Nat) (evs : List SEvent) (a t : Nat) (rest : List Nat)
    (h : legalFrom N initTrace evs = true) :
    (runTrace N evs).deq = (runTrace N evs).enq.take (runTrace N evs).deq.length
    ∧ releaseSlot { activeJobs := a, waitQueue := t :: rest }
        = (some t, { activeJobs := a, waitQueue := rest })
    ∧ releaseSlot { activeJobs := a, waitQueue := [] }
        = (none, { activeJobs := a - 1, waitQueue := [] }) := by
  have hInv : AdmInv N (runTrace N evs) := admInv_run N evs initTrace (admInv_init N) h
  obtain ⟨_, _, h3, _⟩ := hInv
  refine ⟨?_, rfl, rfl⟩
  rw [h3, take_len_append]

/-- Witness for `admission_fifo` at capacity 1 with two queued tickets
that are then served in order. -/
theorem admission_fifo_witness :
    legalFrom 1 initTrace [SEvent.acq 0, SEvent.acq 1, SEvent.acq 2, SEvent.rel, SEvent.rel] = true
    ∧ ((runTrace 1 [SEvent.acq 0, SEvent.acq 1, SEvent.acq 2, SEvent.rel, SEvent.rel]).deq
          = (runTrace 1 [SEvent.acq 0, SEvent.acq 1, SEvent.acq 2, SEvent.rel, SEvent.rel]).enq.take
              (runTrace 1 [SEvent.acq 0, SEvent.acq 1, SEvent.acq 2, SEvent.rel, SEvent.rel]).deq.length
        ∧ releaseSlot { activeJobs := 5, waitQueue := 7 :: [8] }
            = (some 7, { activeJobs := 5, waitQueue := [8] })
        ∧ releaseSlot { activeJobs := 5, waitQueue := [] }
            = (none, { activeJobs := 5 - 1, waitQueue := [] })) :=
  ⟨by decide,
   admission_fifo 1 [SEvent.acq 0, SEvent.acq 1, SEvent.acq 2, SEvent.rel, SEvent.rel]
     5 7 [8] (by decide)⟩

/-- C3: concrete run showing the code violates the claim.  Capacity 1;
job 0 holds the slot; job 1 queues and its 90s admission timeout fires
(the handler answers 504 but nothing removes its resolver from
`waitQueue`); job 0 then finishes and `releaseSlot` shifts the stale
resolver and calls it.  The slot is handed to the abandoned ticket
(`toAbandoned = 1`): `activeJobs` stays 1 forever while no live job runs
(`liveJobs = 0`, empty queue) — a permanent capacity leak, instead of the
claimed forwarding to a live waiter or return to the free count. -/
theorem timed_out_waiter_consumes_slot :
    legalFrom 1 initTrace [SEvent.acq 0, SEvent.acq 1, SEvent.timeoutFire 1, SEvent.rel] = true
    ∧ (runTrace 1 [SEvent.acq 0, SEvent.acq 1, SEvent.timeoutFire 1, SEvent.rel]).toAbandoned = 1
    ∧ (runTrace 1 [SEvent.acq 0, SEvent.acq 1, SEvent.timeoutFire 1, SEvent.rel]).q.activeJobs = 1
    ∧ (runTrace 1 [SEvent.acq 0, SEvent.acq 1, SEvent.timeoutFire 1, SEvent.rel]).liveJobs = 0
    ∧ (runTrace 1 [SEvent.acq 0, SEvent.acq 1, SEvent.timeoutFire 1, SEvent.rel]).q.waitQueue = [] := by
  decide

/-- `needle` matches at the start of the haystack (character list). -/
def listLeads : List Char → List Char → Bool
  | [], _ => true
  | _ :: _, [] => false
  | a :: as, b :: bs => a == b && listLeads as bs

/-- `needle` occurs somewhere in the haystack (character list). -/
def listOccurs (needle : List Char) : List Char → Bool
  | [] => listLeads needle []
  | c :: rest => listLeads needle (c :: rest) || listOccurs needle rest

/-- JavaScript `s.includes(sub)` on strings. -/
def strIncludes (s sub : String) : Bool :=
  listOccurs sub.toList s.toList

/-- The crash classification of the catch block in `/api/pdf`:
`error.message.includes('detached') || includes('closed') || includes('crashed')`. -/
def crashClass (msg : String) : Bool :=
  strIncludes msg "detached" || strIncludes msg "closed" || strIncludes msg "crashed"

/-- A puppeteer browser handle: identity of the launch that created it and
its `connected` flag. -/
structure BHandle where
  hid : Nat
  connected : Bool
deriving DecidableEq

/-- `getBrowser` for a single (non-interleaved) call: if the module
variable is unset or the handle is disconnected, launch a fresh browser
and store it; otherwise return the existing one.  Result: returned
handle, new module state, and whether a launch was performed. -/
def getBrowserSeq (br : Option BHandle) (fresh : BHandle) : BHandle × Option BHandle × Bool :=
  match br with
  | some b => if b.connected then (b, some b, false) else (fresh, some fresh, true)
  | none => (fresh, some fresh, true)

/-- Effect of the `/api/pdf` catch block on the shared `browser`
variable: nulled out exactly when the error message is crash-class. -/
def applyRenderError (br : Option BHandle) (msg : String) : Option BHandle :=
  if crashClass msg then none else br

/-- The `FONT_URLS` table from server.js. -/
def FONT_URLS : List (String × String) :=
  [("Inter", "https://fonts.googleapis.com/css2?family=Inter:wght@300;400;500;600;700&display=swap"),
   ("Noto Serif", "https://fonts.googleapis.com/css2?family=Noto+Serif:ital,wght@0,400;0,500;0,600;0,700;1,400&display=swap"),
   ("Roboto", "https://fonts.googleapis.com/css2?family=Roboto:wght@300;400;500;700&display=swap"),
   ("Open Sans", "https://fonts.googleapis.com/css2?family=Open+Sans:wght@300;400;600;700&display=swap"),
   ("Lato", "https://fonts.googleapis.com/css2?family=Lato:wght@300;400;700&display=swap"),
   ("Montserrat", "https://fonts.googleapis.com/css2?family=Montserrat:wght@300;400;500;600;700&display=swap"),
   ("Playfair Display", "https://fonts.googleapis.com/css2?family=Playfair+Display:wght@400;500;600;700&display=swap")]

/-- `FONT_URLS[fontName]` is truthy. -/
def knownFont (f : String) : Bool :=
  (FONT_URLS.lookup f).isSome

/-- JavaScript truthiness of an optional string field (`undefined` and
`''` are falsy). -/
def jsTruthy : Option String → Bool
  | none => false
  | some s => !(s == "")

/-- The body fields of a `/api/pdf` request and the `x-api-key` header. -/
structure Request where
  apiKeyHeader : Option String
  html : Option String
  css : Option String
  format : Option String
  fontFamily : Option String
deriving DecidableEq

/-- Outcome of `Promise.race([acquireSlot(), slotTimeout])`. -/
inductive AcquireOutcome
  | granted
  | timedOut
deriving DecidableEq

/-- Where the admitted part of the handler fails, if anywhere:
`launchFail` = `getBrowser()` or `newPage()` rejects (no page assigned);
`setupFail` = a per-page setup call rejects after the page exists;
`renderFail` = `setContent` (including its 30s timeout) or `page.pdf`
rejects; `ok` = the PDF is produced. -/
inductive RenderOutcome
  | launchFail (msg : String)
  | setupFail (msg : String)
  | renderFail (msg : String)
  | ok
deriving DecidableEq

/-- Observable touches of shared resources made by one request. -/
inductive Ev
  | slotAcquired
  | pageCreated
  | fontCSSRequested
  | renderAttempted
  | browserInvalidated
  | pageClosed
  | slotReleased
deriving DecidableEq, BEq

/-- Events of the guard `fontFamily && fontFamily !== 'Inter' && FONT_URLS[fontFamily]`
before `getFontCSS` is awaited. -/
def fontFetchEvs (req : Request) : List Ev :=
  match req.fontFamily with
  | some f => if !(f == "") && f != "Inter" && knownFont f then [Ev.fontCSSRequested] else []
  | none => []

/-- Events of the catch block's crash check. -/
def crashEvs (msg : String) : List Ev :=
  if crashClass msg then [Ev.browserInvalidated] else []

/-- The `/api/pdf` handler as a function of the request, the admission
race outcome and the render outcome, returning the HTTP status and the
ordered trace of shared-resource events.  Mirrors server.js lines
209-319: API-key check, truthiness check of `html`, the admission race,
then the try/catch/finally whose `finally` always closes the page (when
one was created) and calls `releaseSlot`. -/
def handlePdf (apiKeyCfg : String) (req : Request) (acq : AcquireOutcome)
    (rout : RenderOutcome) : Nat × List Ev :=
  if apiKeyCfg != "" && !(req.apiKeyHeader == some apiKeyCfg) then (401, [])
  else if !jsTruthy req.html then (400, [])
  else
    match acq with
    | AcquireOutcome.timedOut => (504, [])
    | AcquireOutcome.granted =>
      match rout with
      | RenderOutcome.launchFail msg =>
          (500, Ev.slotAcquired :: (crashEvs msg ++ [Ev.slotReleased]))
      | RenderOutcome.setupFail msg =>
          (500, Ev.slotAcquired :: Ev.pageCreated :: (crashEvs msg ++ [Ev.pageClosed, Ev.slotReleased]))
      | RenderOutcome.renderFail msg =>
          (500, Ev.slotAcquired :: Ev.pageCreated ::
            (fontFetchEvs req ++ [Ev.renderAttempted] ++ crashEvs msg ++ [Ev.pageClosed, Ev.slotReleased]))
      | RenderOutcome.ok =>
          (200, Ev.slotAcquired :: Ev.pageCreated ::
            (fontFetchEvs req ++ [Ev.renderAttempted, Ev.pageClosed, Ev.slotReleased]))

lemma fontFetchEvs_cases (req : Request) :
    fontFetchEvs req = [] ∨ fontFetchEvs req = [Ev.fontCSSRequested] := by
  unfold fontFetchEvs
  rcases req.fontFamily with _ | f
  · exact Or.inl rfl
  · dsimp only
    by_cases hf : (!(f == "") && f != "Inter" && knownFont f) = true
    · rw [if_pos hf]
      exact Or.inr rfl
    · rw [if_neg hf]
      exact Or.inl rfl

/-- The argument of `page.pdf`'s `format` option:
`format === 'Letter' ? 'letter' : 'a4'`, where `format` destructures
with default `'A4'`. -/
def formatOf (fmt : Option String) : String :=
  match fmt with
  | none => "A4"
  | some s => s

/-- Output page format chosen by the handler. -/
def pdfPageFormat (fmt : Option String) : String :=
  if formatOf fmt == "Letter" then "letter" else "a4"

/-- C10: the output page format is letter exactly when the request's
`format` field is the string `'Letter'`; any other value — absent,
lowercase `'letter'`, or unrecognized — yields a4, and the choice is
total (never an invalid-profile error). -/
theorem page_format_letter_iff (fmt : Option String) :
    (pdfPageFormat fmt = "letter" ↔ fmt = some "Letter")
    ∧ (pdfPageFormat fmt = "letter" ∨ pdfPageFormat fmt = "a4")
    ∧ pdfPageFormat (some "letter") = "a4"
    ∧ pdfPageFormat none = "a4" := by
  refine ⟨?_, ?_, by decide, by decide⟩
  · rcases fmt with _ | s
    · constructor
      · intro h
        exact absurd h (by decide)
      · intro h
        cases h
    · by_cases hs : s = "Letter"
      · subst hs
        constructor
        · intro _
          rfl
        · intro _
          decide
      · have hb : (s == "Letter") = false := by
          simpa using hs
        constructor
        · intro h
          rw [pdfPageFormat, formatOf, hb] at h
          exact absurd h (by decide)
        · intro h
          rw [Option.some_inj] at h
          exact absurd h hs
  · rcases fmt with _ | s
    · exact Or.inr (by decide)
    · cases hb : (s == "Letter")
      · exact Or.inr (by rw [pdfPageFormat, formatOf, hb]; rfl)
      · exact Or.inl (by rw [pdfPageFormat, formatOf, hb]; rfl)

/-- C1: for every request that passes validation and wins the admission
race (acquires a slot), every exit path of the handler — success, a
failure before the page exists, a setup failure, a render failure or
timeout — releases the slot exactly once and closes the per-job page
exactly as many times as one was created (no leak, no double release,
no double close). -/
theorem slot_released_exactly_once (apiKeyCfg : String) (req : Request) (rout : RenderOutcome)
    (hauth : (apiKeyCfg != "" && !(req.apiKeyHeader == some apiKeyCfg)) = false)
    (hhtml : jsTruthy req.html = true) :
    ((handlePdf apiKeyCfg req AcquireOutcome.granted rout).2.count Ev.slotReleased = 1)
    ∧ ((handlePdf apiKeyCfg req AcquireOutcome.granted rout).2.count Ev.slotAcquired = 1)
    ∧ ((handlePdf apiKeyCfg req AcquireOutcome.granted rout).2.count Ev.pageClosed
        = (handlePdf apiKeyCfg req AcquireOutcome.granted rout).2.count Ev.pageCreated) := by
  cases rout with
  | launchFail msg =>
      by_cases hc : crashClass msg <;>
        simp [handlePdf, hauth, hhtml, crashEvs, hc] <;> decide
  | setupFail msg =>
      by_cases hc : crashClass msg <;>
        simp [handlePdf, hauth, hhtml, crashEvs, hc] <;> decide
  | renderFail msg =>
      rcases fontFetchEvs_cases req with hF | hF <;>
        by_cases hc : crashClass msg <;>
          simp [handlePdf, hauth, hhtml, crashEvs, hc, hF] <;> decide
  | ok =>
      rcases fontFetchEvs_cases req with hF | hF <;>
        simp [handlePdf, hauth, hhtml, hF] <;> decide

/-- Witness for `slot_released_exactly_once`: an authorized request whose
render fails with a crash-class message. -/
theorem slot_released_exactly_once_witness :
    (("k" != "" && !((some "k" : Option String) == some "k")) = false)
    ∧ jsTruthy (some "<p>hi</p>") = true
    ∧ (((handlePdf "k" ⟨some "k", some "<p>hi</p>", none, none, some "Roboto"⟩
          AcquireOutcome.granted (RenderOutcome.renderFail "Protocol error: Target closed")).2.count
            Ev.slotReleased = 1)
        ∧ ((handlePdf "k" ⟨some "k", some "<p>hi</p>", none, none, some "Roboto"⟩
          AcquireOutcome.granted (RenderOutcome.renderFail "Protocol error: Target closed")).2.count
            Ev.slotAcquired = 1)
        ∧ ((handlePdf "k" ⟨some "k", some "<p>hi</p>", none, none, some "Roboto"⟩
          AcquireOutcome.granted (RenderOutcome.renderFail "Protocol error: Target closed")).2.count
            Ev.pageClosed
            = (handlePdf "k" ⟨some "k", some "<p>hi</p>", none, none, some "Roboto"⟩
          AcquireOutcome.granted (RenderOutcome.renderFail "Protocol error: Target closed")).2.count
            Ev.pageCreated)) :=
  ⟨by decide, by decide,
   slot_released_exactly_once "k" ⟨some "k", some "<p>hi</p>", none, none, some "Roboto"⟩
     (RenderOutcome.renderFail "Protocol error: Target closed") (by decide) (by decide)⟩

/-- C8: on a render failure, the shared browser handle is invalidated
exactly when the error message is crash-class (contains `detached`,
`closed` or `crashed`), so the next `getBrowser` call launches a fresh
handle; a non-crash error leaves the handle unchanged; the failing job
performs one render attempt (no retry) and itself answers 500. -/
theorem crash_error_invalidation (apiKeyCfg : String) (req : Request) (msg : String)
    (br : Option BHandle) (fresh : BHandle)
    (hauth : (apiKeyCfg != "" && !(req.apiKeyHeader == some apiKeyCfg)) = false)
    (hhtml : jsTruthy req.html = true) :
    ((Ev.browserInvalidated
        ∈ (handlePdf apiKeyCfg req AcquireOutcome.granted (RenderOutcome.renderFail msg)).2)
      ↔ crashClass msg = true)
    ∧ (handlePdf apiKeyCfg req AcquireOutcome.granted (RenderOutcome.renderFail msg)).1 = 500
    ∧ (handlePdf apiKeyCfg req AcquireOutcome.granted (RenderOutcome.renderFail msg)).2.count
        Ev.renderAttempted = 1
    ∧ (crashClass msg = true →
        applyRenderError br msg = none
        ∧ (getBrowserSeq none fresh).2.2 = true
        ∧ (getBrowserSeq none fresh).1 = fresh)
    ∧ (crashClass msg = false → applyRenderError br msg = br) := by
  rcases fontFetchEvs_cases req with hF | hF <;>
    by_cases hc : crashClass msg <;>
      simp [handlePdf, hauth, hhtml, crashEvs, applyRenderError, getBrowserSeq, hc, hF] <;> decide

/-- Witness for `crash_error_invalidation` with a crash-class message and
a previously live handle. -/
theorem crash_error_invalidation_witness :
    (("" != "" && !((none : Option String) == some "")) = false)
    ∧ jsTruthy (some "x") = true
    ∧ (((Ev.browserInvalidated
          ∈ (handlePdf "" ⟨none, some "x", none, none, none⟩ AcquireOutcome.granted
              (RenderOutcome.renderFail "Session closed. Most likely the page has been closed.")).2)
        ↔ crashClass "Session closed. Most likely the page has been closed." = true)
      ∧ (handlePdf "" ⟨none, some "x", none, none, none⟩ AcquireOutcome.granted
          (RenderOutcome.renderFail "Session closed. Most likely the page has been closed.")).1 = 500
      ∧ (handlePdf "" ⟨none, some "x", none, none, none⟩ AcquireOutcome.granted
          (RenderOutcome.renderFail "Session closed. Most likely the page has been closed.")).2.count
            Ev.renderAttempted = 1
      ∧ (crashClass "Session closed. Most likely the page has been closed." = true →
          applyRenderError (some ⟨0, true⟩) "Session closed. Most likely the page has been closed." = none
          ∧ (getBrowserSeq none ⟨1, true⟩).2.2 = true
          ∧ (getBrowserSeq none ⟨1, true⟩).1 = ⟨1, true⟩)
      ∧ (crashClass "Session closed. Most likely the page has been closed." = false →
          applyRenderError (some ⟨0, true⟩) "Session closed. Most likely the page has been closed."
            = some ⟨0, true⟩)) :=
  ⟨by decide, by decide,
   crash_error_invalidation "" ⟨none, some "x", none, none, none⟩
     "Session closed. Most likely the page has been closed."
     (some ⟨0, true⟩) ⟨1, true⟩ (by decide) (by decide)⟩

/-- C9: a request rejected as unauthorized (shared secret configured and
header absent or mismatched) or as bad input (missing/empty `html`) is
answered before any shared resource is touched: the event trace is empty
— no slot acquired, hence the `activeJobs` counter and wait queue are
untouched, and neither the browser nor the font cache is accessed. -/
theorem reject_before_resources (apiKeyCfg : String) (req : Request)
    (acq : AcquireOutcome) (rout : RenderOutcome)
    (h : (apiKeyCfg != "" && !(req.apiKeyHeader == some apiKeyCfg)) = true
          ∨ jsTruthy req.html = false) :
    (handlePdf apiKeyCfg req acq rout).2 = []
    ∧ ((handlePdf apiKeyCfg req acq rout).1 = 401 ∨ (handlePdf apiKeyCfg req acq rout).1 = 400)
    ∧ Ev.slotAcquired ∉ (handlePdf apiKeyCfg req acq rout).2
    ∧ Ev.fontCSSRequested ∉ (handlePdf apiKeyCfg req acq rout).2
    ∧ Ev.pageCreated ∉ (handlePdf apiKeyCfg req acq rout).2 := by
  rcases h with h | h
  · simp [handlePdf, h]
  · by_cases hg : (apiKeyCfg != "" && !(req.apiKeyHeader == some apiKeyCfg)) = true
    · simp [handlePdf, hg]
    · have hg' : (apiKeyCfg != "" && !(req.apiKeyHeader == some apiKeyCfg)) = false := by
        simpa using hg
      simp [handlePdf, hg', h]

/-- Witness for `reject_before_resources`: secret configured, header
absent. -/
theorem reject_before_resources_witness :
    ((("k" != "" && !((none : Option String) == some "k")) = true)
      ∨ jsTruthy (some "<p>doc</p>") = false)
    ∧ ((handlePdf "k" ⟨none, some "<p>doc</p>", none, none, none⟩
          AcquireOutcome.granted RenderOutcome.ok).2 = []
      ∧ ((handlePdf "k" ⟨none, some "<p>doc</p>", none, none, none⟩
          AcquireOutcome.granted RenderOutcome.ok).1 = 401
        ∨ (handlePdf "k" ⟨none, some "<p>doc</p>", none, none, none⟩
          AcquireOutcome.granted RenderOutcome.ok).1 = 400)
      ∧ Ev.slotAcquired ∉ (handlePdf "k" ⟨none, some "<p>doc</p>", none, none, none⟩
          AcquireOutcome.granted RenderOutcome.ok).2
      ∧ Ev.fontCSSRequested ∉ (handlePdf "k" ⟨none, some "<p>doc</p>", none, none, none⟩
          AcquireOutcome.granted RenderOutcome.ok).2
      ∧ Ev.pageCreated ∉ (handlePdf "k" ⟨none, some "<p>doc</p>", none, none, none⟩
          AcquireOutcome.granted RenderOutcome.ok).2) :=
  ⟨Or.inl (by decide),
   reject_before_resources "k" ⟨none, some "<p>doc</p>", none, none, none⟩
     AcquireOutcome.granted RenderOutcome.ok (Or.inl (by decide))⟩

/-- Program counter of one in-flight `getBrowser()` call: before the
`!browser || !browser.connected` check, suspended in `await
puppeteer.launch` (tagged with the launch's sequence number), or
returned with a handle. -/
inductive BPc
  | ready
  | launching (lid : Nat)
  | finished (h : BHandle)
deriving DecidableEq

/-- Shared `browser` variable, launch counter, and the program counters
of the concurrent `getBrowser()` callers. -/
structure BrowserSys where
  browser : Option BHandle
  launches : Nat
  pcs : List BPc
deriving DecidableEq

/-- The guard `!browser || !browser.connected` of `getBrowser`. -/
def bCheck : Option BHandle → Bool
  | none => true
  | some b => !b.connected

/-- Advance caller `i` of `getBrowser()` by one step.  A caller at the
check either returns the stored live handle, or — seeing none — starts
its own `puppeteer.launch` (there is no in-flight-promise guard in the
code, so nothing stops a second caller from also launching).  A caller
resuming from `await puppeteer.launch` assigns `browser` and returns its
own fresh handle. -/
def bStep (sys : BrowserSys) (i : Nat) : BrowserSys :=
  match sys.pcs.get? i with
  | none => sys
  | some BPc.ready =>
      if bCheck sys.browser then
        { sys with launches := sys.launches + 1
                   pcs := sys.pcs.set i (BPc.launching sys.launches) }
      else
        match sys.browser with
        | some b => { sys with pcs := sys.pcs.set i (BPc.finished b) }
        | none => sys
  | some (BPc.launching lid) =>
      { sys with browser := some ⟨lid, true⟩
                 pcs := sys.pcs.set i (BPc.finished ⟨lid, true⟩) }
  | some (BPc.finished _) => sys

/-- Run `getBrowser` callers under an interleaving schedule. -/
def bRun (sys : BrowserSys) (sched : List Nat) : BrowserSys :=
  sched.foldl bStep sys

/-- Two `getBrowser()` callers while no handle exists. -/
def bInit2 : BrowserSys :=
  { browser := none, launches := 0, pcs := [BPc.ready, BPc.ready] }

/-- C5: counterexample.  Two concurrent `getBrowser()` calls while no
handle exists, interleaved check/check/resume/resume, perform two
browser launches — not the claimed single construction — and the two
callers end with two different handles. -/
theorem getBrowser_concurrent_double_launch :
    (bRun bInit2 [0, 1, 0, 1]).launches = 2
    ∧ (bRun bInit2 [0, 1, 0, 1]).pcs
        = [BPc.finished ⟨0, true⟩, BPc.finished ⟨1, true⟩]
    ∧ ¬ (bRun bInit2 [0, 1, 0, 1]).launches = 1 := by
  decide

/-- C5 (amended): `getBrowser` does not coalesce concurrent cold
callers.  A caller whose check runs while a live connected handle is
stored performs no construction and receives exactly that handle; but
each caller whose check runs while no live handle is stored starts its
own construction, so two interleaved cold callers perform two launches. -/
theorem getBrowser_no_coalescing (sys : BrowserSys) (i : Nat) (b : BHandle)
    (hb : sys.browser = some b) (hc : b.connected = true)
    (hpc : sys.pcs.get? i = some BPc.ready) :
    (bStep sys i).launches = sys.launches
    ∧ (bStep sys i).browser = some b
    ∧ (bStep sys i).pcs.get? i = some (BPc.finished b)
    ∧ (bRun bInit2 [0, 1, 0, 1]).launches = 2 := by
  simp only [List.get?_eq_getElem?] at hpc
  have hi : i < sys.pcs.length := by
    by_contra hge
    rw [List.getElem?_eq_none (by omega)] at hpc
    cases hpc
  refine ⟨?_, ?_, ?_, by decide⟩ <;>
    simp [bStep, hpc, hb, bCheck, hc, List.getElem?_set_eq_of_lt _ hi]

/-- Witness for `getBrowser_no_coalescing`: one caller checking while a
live handle is stored. -/
theorem getBrowser_no_coalescing_witness :
    ((⟨some ⟨0, true⟩, 1, [BPc.ready]⟩ : BrowserSys).browser = some ⟨0, true⟩)
    ∧ (⟨0, true⟩ : BHandle).connected = true
    ∧ ((⟨some ⟨0, true⟩, 1, [BPc.ready]⟩ : BrowserSys).pcs.get? 0 = some BPc.ready)
    ∧ ((bStep ⟨some ⟨0, true⟩, 1, [BPc.ready]⟩ 0).launches
          = (⟨some ⟨0, true⟩, 1, [BPc.ready]⟩ : BrowserSys).launches
        ∧ (bStep ⟨some ⟨0, true⟩, 1, [BPc.ready]⟩ 0).browser = some ⟨0, true⟩
        ∧ (bStep ⟨some ⟨0, true⟩, 1, [BPc.ready]⟩ 0).pcs.get? 0
            = some (BPc.finished ⟨0, true⟩)
        ∧ (bRun bInit2 [0, 1, 0, 1]).launches = 2) :=
  ⟨by decide, by decide, by decide,
   getBrowser_no_coalescing ⟨some ⟨0, true⟩, 1, [BPc.ready]⟩ 0 ⟨0, true⟩
     (by decide) (by decide) (by decide)⟩

/-- Program counter of one in-flight `getFontCSS` call: before the cache
check, suspended in `await fetch`, or returned with a value. -/
inductive FPc
  | ready
  | fetching
  | got (v : String)
deriving DecidableEq

/-- Shared `fontCSSCache`, fetch counter, the key requested by all
callers, each caller's would-be fetch result, and the callers' program
counters. -/
structure CacheSys where
  cache : List (String × String)
  fetches : Nat
  key : String
  vals : List String
  pcs : List FPc
deriving DecidableEq

/-- Advance caller `i` of `getFontCSS(key)` by one step.  A caller at
the check returns `''` for an unknown key, returns the cached value if
the key is populated, and otherwise starts its own `fetch` — the cache
entry is only written after the fetch resolves, so nothing stops a
second caller from also fetching.  A caller resuming from `await fetch`
stores its own result and returns it. -/
def fStep (sys : CacheSys) (i : Nat) : CacheSys :=
  match sys.pcs.get? i with
  | none => sys
  | some FPc.ready =>
      if !knownFont sys.key then { sys with pcs := sys.pcs.set i (FPc.got "") }
      else
        match sys.cache.lookup sys.key with
        | some v => { sys with pcs := sys.pcs.set i (FPc.got v) }
        | none => { sys with fetches := sys.fetches + 1, pcs := sys.pcs.set i FPc.fetching }
  | some FPc.fetching =>
      { sys with cache := (sys.key, sys.vals.getD i "") :: sys.cache
                 pcs := sys.pcs.set i (FPc.got (sys.vals.getD i "")) }
  | some (FPc.got _) => sys

/-- Run `getFontCSS` callers under an interleaving schedule. -/
def fRun (sys : CacheSys) (sched : List Nat) : CacheSys :=
  sched.foldl fStep sys

/-- Two concurrent `getFontCSS('Roboto')` calls on an unpopulated cache,
whose fetches would resolve to different bodies. -/
def fInit2 : CacheSys :=
  { cache := [], fetches := 0, key := "Roboto", vals := ["a", "b"]
    pcs := [FPc.ready, FPc.ready] }

/-- C6: counterexample.  Two concurrent `getFontCSS` calls for the known
but unpopulated key `'Roboto'`, interleaved check/check/resume/resume,
issue two fetches — not the claimed single flight — and the two callers
observe different values. -/
theorem fontCSS_concurrent_double_fetch :
    (fRun fInit2 [0, 1, 0, 1]).fetches = 2
    ∧ (fRun fInit2 [0, 1, 0, 1]).pcs = [FPc.got "a", FPc.got "b"]
    ∧ ¬ (fRun fInit2 [0, 1, 0, 1]).fetches = 1 := by
  decide

/-- C6 (amended): `getFontCSS` has no single-flight de-duplication.  A
caller whose check runs while the key is already populated issues no
fetch and returns the cached value; but each caller whose check runs
while the key is unpopulated issues its own fetch, so two interleaved
callers on an unpopulated key issue two fetches and may observe
different values. -/
theorem fontCSS_no_single_flight (sys : CacheSys) (i : Nat) (v : String)
    (hk : knownFont sys.key = true)
    (hv : sys.cache.lookup sys.key = some v)
    (hpc : sys.pcs.get? i = some FPc.ready) :
    (fStep sys i).fetches = sys.fetches
    ∧ (fStep sys i).cache = sys.cache
    ∧ (fStep sys i).pcs.get? i = some (FPc.got v)
    ∧ (fRun fInit2 [0, 1, 0, 1]).fetches = 2 := by
  simp only [List.get?_eq_getElem?] at hpc
  have hi : i < sys.pcs.length := by
    by_contra hge
    rw [List.getElem?_eq_none (by omega)] at hpc
    cases hpc
  refine ⟨?_, ?_, ?_, by decide⟩ <;>
    simp [fStep, hpc, hk, hv, List.getElem?_set_eq_of_lt _ hi]

/-- Witness for `fontCSS_no_single_flight`: one caller checking a
populated key. -/
theorem fontCSS_no_single_flight_witness :
    knownFont (⟨[("Roboto", "css")], 3, "Roboto", [], [FPc.ready]⟩ : CacheSys).key = true
    ∧ (⟨[("Roboto", "css")], 3, "Roboto", [], [FPc.ready]⟩ : CacheSys).cache.lookup
        (⟨[("Roboto", "css")], 3, "Roboto", [], [FPc.ready]⟩ : CacheSys).key = some "css"
    ∧ (⟨[("Roboto", "css")], 3, "Roboto", [], [FPc.ready]⟩ : CacheSys).pcs.get? 0 = some FPc.ready
    ∧ ((fStep ⟨[("Roboto", "css")], 3, "Roboto", [], [FPc.ready]⟩ 0).fetches
          = (⟨[("Roboto", "css")], 3, "Roboto", [], [FPc.ready]⟩ : CacheSys).fetches
        ∧ (fStep ⟨[("Roboto", "css")], 3, "Roboto", [], [FPc.ready]⟩ 0).cache
          = (⟨[("Roboto", "css")], 3, "Roboto", [], [FPc.ready]⟩ : CacheSys).cache
        ∧ (fStep ⟨[("Roboto", "css")], 3, "Roboto", [], [FPc.ready]⟩ 0).pcs.get? 0
          = some (FPc.got "css")
        ∧ (fRun fInit2 [0, 1, 0, 1]).fetches = 2) :=
  ⟨by decide, by decide, by decide,
   fontCSS_no_single_flight ⟨[("Roboto", "css")], 3, "Roboto", [], [FPc.ready]⟩ 0 "css"
     (by decide) (by decide) (by decide)⟩

/-- Result of the `await fetch`/`res.text()` pair inside `getFontCSS`:
either css text, or a rejection caught by the bare `catch`. -/
inductive FetchOutcome
  | ok (css : String)
  | fetchErr
deriving DecidableEq

/-- `getFontCSS` for a single call, with the fetch outcome as an oracle:
unknown keys return `''` at once; a populated key returns the cached
value; otherwise the fetch runs — on success the value is stored
(`fontCSSCache.set`) and returned, on failure the `catch` returns `''`
WITHOUT storing anything.  Result: returned css, new cache, and whether
a fetch was issued. -/
def getFontCSS (cache : List (String × String)) (fontName : String)
    (oracle : FetchOutcome) : String × List (String × String) × Bool :=
  if !knownFont fontName then ("", cache, false)
  else
    match cache.lookup fontName with
    | some css => (css, cache, false)
    | none =>
      match oracle with
      | FetchOutcome.ok css => (css, (fontName, css) :: cache, true)
      | FetchOutcome.fetchErr => ("", cache, true)

/-- C7: counterexample.  A failed fetch for the known key `'Roboto'`
leaves the cache empty — no empty value is stored, the key stays
unpopulated — and the very next `getFontCSS` call for the same key
issues a new fetch, contradicting the claim that the key is never
re-fetched for the remainder of the process lifetime. -/
theorem fontCSS_failure_not_cached :
    (getFontCSS [] "Roboto" FetchOutcome.fetchErr).2.1 = []
    ∧ (getFontCSS [] "Roboto" FetchOutcome.fetchErr).2.1.lookup "Roboto" = none
    ∧ (getFontCSS (getFontCSS [] "Roboto" FetchOutcome.fetchErr).2.1 "Roboto"
        (FetchOutcome.ok "x")).2.2 = true := by
  decide

/-- C7 (amended): on fetch failure `getFontCSS` returns an empty string
but stores nothing: the cache is unchanged, the key remains unpopulated,
and a later independent call for the same key issues a new fetch. -/
theorem fontCSS_failure_returns_empty_no_store (cache : List (String × String))
    (fontName : String) (css : String)
    (hk : knownFont fontName = true)
    (hm : cache.lookup fontName = none) :
    getFontCSS cache fontName FetchOutcome.fetchErr = ("", cache, true)
    ∧ (getFontCSS cache fontName (FetchOutcome.ok css)).2.2 = true := by
  simp [getFontCSS, hk, hm]

/-- Witness for `fontCSS_failure_returns_empty_no_store` on key
`'Lato'` and an empty cache. -/
theorem fontCSS_failure_returns_empty_no_store_witness :
    knownFont "Lato" = true
    ∧ ([] : List (String × String)).lookup "Lato" = none
    ∧ (getFontCSS [] "Lato" FetchOutcome.fetchErr = ("", [], true)
        ∧ (getFontCSS [] "Lato" (FetchOutcome.ok "body{}")).2.2 = true) :=
  ⟨by decide, by decide,
   fontCSS_failure_returns_empty_no_store [] "Lato" "body{}" (by decide) (by decide)⟩
